import Mathlib

/-!
Verification of the in-toto step-recording CLI (`in_toto/in_toto_run.py`)
against its specification.

The CLI layer (`main`, the exception-catching wrapper `in_toto_run`, key
loading, verbosity handling) is embedded directly from the source file.
The core step-recording engine (`runlib.in_toto_run`, the artifact hasher,
command executor, signer and link writer) is not part of the visible
source; those components are modelled from the specification, as marked
in their doc comments.
-/

namespace InToto

/-! ## Artifacts and the artifact hasher -/

/-- An artifact inventory entry: a path together with the content digest
recorded for it. -/
structure Artifact where
  path : String
  digest : Nat
deriving DecidableEq, Repr

/-- Canonical ordering of inventory entries: lexicographic on
(path, digest).  Entries are sorted by path; the digest tie-break makes
the relation antisymmetric on all of `Artifact`. -/
def artLE (a b : Artifact) : Prop :=
  a.path < b.path ∨ (a.path = b.path ∧ a.digest ≤ b.digest)

instance : DecidableRel artLE := fun a b => by
  unfold artLE; exact inferInstance

instance : IsTotal Artifact artLE where
  total a b := by
    rcases lt_trichotomy a.path b.path with h | h | h
    · exact Or.inl (Or.inl h)
    · rcases Nat.le_total a.digest b.digest with hd | hd
      · exact Or.inl (Or.inr ⟨h, hd⟩)
      · exact Or.inr (Or.inr ⟨h.symm, hd⟩)
    · exact Or.inr (Or.inl h)

instance : IsTrans Artifact artLE where
  trans a b c hab hbc := by
    rcases hab with hab | ⟨hab, hab'⟩
    · rcases hbc with hbc | ⟨hbc, _⟩
      · exact Or.inl (lt_trans hab hbc)
      · exact Or.inl (hbc ▸ hab)
    · rcases hbc with hbc | ⟨hbc, hbc'⟩
      · exact Or.inl (hab ▸ hbc)
      · exact Or.inr ⟨hab.trans hbc, le_trans hab' hbc'⟩

instance : IsAntisymm Artifact artLE where
  antisymm a b hab hba := by
    obtain ⟨ap, ad⟩ := a
    obtain ⟨bp, bd⟩ := b
    rcases hab with hab | ⟨hab, hab'⟩
    · rcases hba with hba | ⟨hba, _⟩
      · exact absurd (lt_trans hab hba) (lt_irrefl _)
      · exact absurd hab (hba ▸ lt_irrefl _)
    · rcases hba with hba | ⟨_, hba'⟩
      · exact absurd hba (hab ▸ lt_irrefl _)
      · simp only [Artifact.mk.injEq]
        exact ⟨hab, Nat.le_antisymm hab' hba'⟩

/-- A filesystem snapshot: an association of paths to file contents, in
whatever order a traversal of the tree yields them. -/
abbrev FileSystem := List (String × String)

/-- Content lookup in a filesystem snapshot. -/
def lookupFS : FileSystem → String → Option String
  | [], _ => none
  | (q, c) :: fs, p => if q = p then some c else lookupFS fs p

/-- Modelled from the spec: the content digest function of the
ArtifactHasher (a strong cryptographic hash in the real system).  The
spec requires only that hashing the same byte content always yields the
same digest; any deterministic function represents it. -/
def hashContent (s : String) : Nat :=
  String.foldl (fun h c => h * 257 + c.toNat + 1) 7 s

/-- Error taxonomy of the core, from the spec's error-handling design. -/
inductive RunError where
  | artifactNotFound (path : String)
  | commandExecution (msg : String)
  | signing (keyid : String)
deriving DecidableEq, Repr

/-- Human-readable message of an error, as interpolated into the host's
log line. -/
def RunError.message : RunError → String
  | .artifactNotFound p => "Artifact not found - " ++ p
  | .commandExecution m => "Command execution failed - " ++ m
  | .signing k => "Signing failed - " ++ k

/-- Modelled from the spec: resolution of the declared artifact paths
against the filesystem.  A declared path that does not exist fails with
`ArtifactNotFoundError`. -/
def resolvePaths (fs : FileSystem) : List String → Except RunError (List (String × String))
  | [] => .ok []
  | p :: ps =>
    match lookupFS fs p with
    | none => .error (.artifactNotFound p)
    | some c =>
      match resolvePaths fs ps with
      | .error e => .error e
      | .ok rest => .ok ((p, c) :: rest)

/-- Modelled from the spec: the ArtifactHasher's inventory computation
over a resolved listing.  Each entry is hashed and the inventory is
sorted by path before serialization. -/
def hashListing (listing : List (String × String)) : List Artifact :=
  List.insertionSort artLE (listing.map fun pc => ⟨pc.1, hashContent pc.2⟩)

/-- Modelled from the spec: the ArtifactHasher.  Resolves the declared
paths (failing with `ArtifactNotFoundError` on a missing one) and
produces the canonical sorted inventory. -/
def hashArtifacts (fs : FileSystem) (paths : List String) : Except RunError (List Artifact) :=
  match resolvePaths fs paths with
  | .error e => .error e
  | .ok listing => .ok (hashListing listing)

/-! ## Command execution -/

/-- Exit status recorded for the step: a verbatim exit code, or the
sentinel meaning "no command run". -/
inductive ExitStatus where
  | exited (code : Int)
  | noCommand
deriving DecidableEq, Repr

/-- Outcome of the command executor: the argument vector executed, the
exit status, and the captured streams (empty when capture is off). -/
structure CommandResult where
  cmd : List String
  status : ExitStatus
  stdout : String
  stderr : String
deriving DecidableEq, Repr

/-- Modelled from the spec: the CommandExecutor (with StreamCapture).
`run` is the environment: it gives the spawn outcome of an argument
vector — `none` when the process cannot be spawned, otherwise the exit
code and the bytes on the two streams.  An empty argument vector means
the step declares no command: the executor is skipped entirely and the
sentinel status is recorded with no exit code. -/
def execute (run : List String → Option (Int × String × String))
    (cmd : List String) (captureStreams : Bool) : Except RunError CommandResult :=
  if cmd.isEmpty then
    .ok { cmd := [], status := .noCommand, stdout := "", stderr := "" }
  else
    match run cmd with
    | none => .error (.commandExecution (String.intercalate " " cmd))
    | some (code, out, err) =>
      .ok { cmd := cmd, status := .exited code,
            stdout := if captureStreams then out else "",
            stderr := if captureStreams then err else "" }

/-! ## Link, signing and the core recording engine -/

/-- The attested record of one step. -/
structure Link where
  name : String
  materials : List Artifact
  products : List Artifact
  command : List String
  status : ExitStatus
  stdout : String
  stderr : String
deriving DecidableEq, Repr

/-- Modelled from the spec: canonicalization of a Link to a deterministic
byte sequence with stable field ordering, computed before signing. -/
def canonicalLink (l : Link) : String :=
  let inv := fun arts => String.intercalate ","
    ((arts : List Artifact).map fun a => a.path ++ "=" ++ toString a.digest)
  "name:" ++ l.name ++
  ";materials:" ++ inv l.materials ++
  ";products:" ++ inv l.products ++
  ";command:" ++ String.intercalate " " l.command ++
  ";status:" ++ (match l.status with
                 | .exited c => toString c
                 | .noCommand => "no-command") ++
  ";stdout:" ++ l.stdout ++ ";stderr:" ++ l.stderr

/-- A Link together with (keyid, signature) pairs over its canonical
bytes. -/
structure SignedLink where
  link : Link
  signatures : List (String × Nat)
deriving DecidableEq, Repr

/-- The environment a step recording runs in: the filesystem as seen when
materials are hashed, the spawn behaviour of commands, the filesystem as
seen when products are hashed, and the external signing agent (GPG
keyring), which knows some key identifiers and not others. -/
structure World where
  fsBefore : FileSystem
  run : List String → Option (Int × String × String)
  fsAfter : FileSystem
  gpgAgent : String → Option Nat

/-- Modelled from the spec: the Signer.  The private-key backend signs
the canonical bytes with the key material handed in by the caller; the
external-agent backend delegates to the keyring and fails with
`SigningError` when the agent does not know the key identifier. -/
def signLink (w : World) (key : String) (useGpg : Bool) (link : Link) :
    Except RunError SignedLink :=
  let bytes := canonicalLink link
  if useGpg then
    match w.gpgAgent key with
    | none => .error (.signing key)
    | some secret => .ok { link := link, signatures := [(key, hashContent bytes + secret)] }
  else
    .ok { link := link, signatures := [(key, hashContent (bytes ++ key))] }

namespace Runlib

/-- Modelled from the spec: `runlib.in_toto_run`, the core
step-recording engine.  Sequential order is a correctness requirement:
materials are hashed before the command runs, products after it
completes; then the Link is assembled, signed and returned.  Any failure
aborts the whole recording with an error and no Link. -/
def in_toto_run (w : World) (step_name : String)
    (material_list product_list : List String) (link_cmd_args : List String)
    (key : String) (record_streams : Bool) (use_gpg : Bool) :
    Except RunError SignedLink :=
  match hashArtifacts w.fsBefore material_list with
  | .error e => .error e
  | .ok materials =>
    match execute w.run link_cmd_args record_streams with
    | .error e => .error e
    | .ok res =>
      match hashArtifacts w.fsAfter product_list with
      | .error e => .error e
      | .ok products =>
        let link : Link :=
          { name := step_name, materials := materials, products := products,
            command := link_cmd_args, status := res.status,
            stdout := res.stdout, stderr := res.stderr }
        signLink w key use_gpg link

end Runlib

/-! ## The CLI layer, embedded from `in_toto/in_toto_run.py` -/

namespace Cli

/-- The parsed command-line arguments of `main` (argparse result).
Absent `--materials`/`--products` are the empty list; `link_cmd` is the
command vector after the double dash. -/
structure Args where
  step_name : String
  materials : List String
  products : List String
  key : String
  use_gpg : Bool
  record_streams : Bool
  no_command : Bool
  verbose : Bool
  link_cmd : List String
deriving DecidableEq, Repr

/-- One call into the core: the arguments `main` hands to the wrapper
`in_toto_run`, which forwards them to `runlib.in_toto_run`. -/
structure CoreCall where
  step_name : String
  materials : List String
  products : List String
  cmd : List String
  key : String
  record_streams : Bool
  use_gpg : Bool
deriving DecidableEq, Repr

/-- How the process ends, as observed by the operator. -/
inductive Outcome where
  /-- `parser.print_usage()` followed by `parser.exit(...)`: usage is
  printed and the process terminates before the core is reached. -/
  | usageExit
  /-- key loading raised: `log.error("in load key - ...")`, `sys.exit(1)`. -/
  | keyLoadExit (logged : String)
  /-- the wrapper caught an exception from the core:
  `log.error("in toto run - ...")`, `sys.exit(1)`. -/
  | runFailure (logged : String)
  /-- the core returned: `in_toto_run` returns `None` and `main` falls
  off the end, exiting normally. -/
  | finished (sl : SignedLink)
deriving DecidableEq, Repr

/-- Process exit status for each outcome (`parser.exit` with a message
string makes CPython exit with status 1, as do the `sys.exit(1)` calls). -/
def Outcome.exitCode : Outcome → Nat
  | .usageExit => 1
  | .keyLoadExit _ => 1
  | .runFailure _ => 1
  | .finished _ => 0

/-- Error lines written through `log.error` on the way to this outcome. -/
def Outcome.logged : Outcome → List String
  | .usageExit => []
  | .keyLoadExit m => [m]
  | .runFailure m => [m]
  | .finished _ => []

/-- The record `main` leaves behind: the core call it made (if any) and
how the process ended. -/
structure MainTrace where
  coreCall : Option CoreCall
  outcome : Outcome
deriving DecidableEq, Repr

/-- The wrapper `in_toto_run` of `in_toto_run.py` (lines 37-84): calls
`runlib.in_toto_run` and catches every exception, logging
`"in toto run - {e}"` and calling `sys.exit(1)`; on success it returns
`None` to `main`. -/
def in_toto_run (w : World) (c : CoreCall) : Outcome :=
  match Runlib.in_toto_run w c.step_name c.materials c.products c.cmd
      c.key c.record_streams c.use_gpg with
  | .ok sl => .finished sl
  | .error e => .runFailure ("in toto run - " ++ e.message)

/-- Key loading in `main` (lines 152-161): without `--use-gpg` the RSA
key is imported from file (`keyDb` gives the import outcome; an
exception logs `"in load key - ..."` and exits); with `--use-gpg` the
key argument is taken verbatim as a GPG keyid. -/
def loadKey (keyDb : String → Option String) (args : Args) : Except String String :=
  if !args.use_gpg then
    match keyDb args.key with
    | some k => .ok k
    | none => .error ("in load key - " ++ args.key)
  else
    .ok args.key

/-- The dispatch of `main` (lines 152-171): load the key, then either
call the core with the empty command vector (`--no-command`, line 164,
which passes no `use_gpg` argument, so the wrapper's default `False`
applies), or print usage and exit when no command was supplied, or call
the core with the supplied command and the user's `use_gpg` flag. -/
def mainRun (w : World) (keyDb : String → Option String) (args : Args) : MainTrace :=
  match loadKey keyDb args with
  | .error msg => { coreCall := none, outcome := .keyLoadExit msg }
  | .ok key =>
    if args.no_command then
      let c : CoreCall :=
        { step_name := args.step_name, materials := args.materials,
          products := args.products, cmd := [], key := key,
          record_streams := args.record_streams, use_gpg := false }
      { coreCall := some c, outcome := in_toto_run w c }
    else if args.link_cmd.isEmpty then
      { coreCall := none, outcome := .usageExit }
    else
      let c : CoreCall :=
        { step_name := args.step_name, materials := args.materials,
          products := args.products, cmd := args.link_cmd, key := key,
          record_streams := args.record_streams, use_gpg := args.use_gpg }
      { coreCall := some c, outcome := in_toto_run w c }

/-- State of the process-global logging configuration: the level of the
root logger. -/
structure ProcState where
  logLevel : Nat
deriving DecidableEq, Repr

/-- Python logging levels used by the program. -/
def logWARNING : Nat := 30

/-- Python logging level INFO. -/
def logINFO : Nat := 20

/-- Verbosity handling in `main` (lines 143-145): when `--verbose` is
set, `log.logging.getLogger().setLevel(log.logging.INFO)` mutates the
level of the process-global root logger; otherwise the global state is
left untouched. -/
def applyVerbosity (args : Args) (s : ProcState) : ProcState :=
  if args.verbose then { s with logLevel := logINFO } else s

end Cli

/-! ## The link writer -/

/-- What the writer's target directory holds: the destination path's
content and the temporary file's content, if any. -/
structure Disk where
  dest : Option String
  temp : Option String
deriving DecidableEq, Repr

/-- How one write attempt unfolds: it either runs to completion, or
fails after some prefix of the bytes has reached the temporary file
(before the rename). -/
inductive WriteEvent where
  | complete
  | failAfter (n : Nat)
deriving DecidableEq, Repr

/-- Modelled from the spec: serialization of the signed record — the
canonical bytes of the Link plus the attached signatures. -/
def serializeSignedLink (sl : SignedLink) : String :=
  canonicalLink sl.link ++ ";signatures:" ++ String.intercalate ","
    (sl.signatures.map fun s => s.1 ++ "=" ++ toString s.2)

/-- Modelled from the spec: the LinkWriter.  The serialized record is
written to a temporary file and then moved to the destination by one
atomic rename; a failure before the rename leaves only a partial
temporary file and never touches the destination.  Returns the resulting
disk state and whether the write succeeded. -/
def writeSignedLink (sl : SignedLink) (ev : WriteEvent) (d : Disk) : Disk × Bool :=
  let bytes := serializeSignedLink sl
  match ev with
  | .complete => ({ dest := some bytes, temp := none }, true)
  | .failAfter n => ({ dest := d.dest, temp := some (bytes.take n) }, false)

/-! ## Concrete fixtures used by witnesses and counterexamples -/

/-- A world whose filesystem is empty, no command can be spawned, and the
GPG agent knows no key. -/
def wEmpty : World :=
  { fsBefore := [], run := fun _ => none, fsAfter := [], gpgAgent := fun _ => none }

/-- A core call whose material list references a path absent from
`wEmpty`'s filesystem. -/
def cMissing : Cli.CoreCall :=
  { step_name := "write-code", materials := ["missing.txt"], products := [],
    cmd := ["vi", "foo.py"], key := "bob", record_streams := false, use_gpg := false }

/-! ## C1 -/

/-- C1: whenever the core step recording (`runlib.in_toto_run`) fails
with any error, the wrapper `in_toto_run` logs the error message
(`"in toto run - ..."`) and terminates the process with exit status 1;
it never returns normally after such an error. -/
theorem wrapper_exits_one_on_core_error (w : World) (c : Cli.CoreCall) (e : RunError)
    (h : Runlib.in_toto_run w c.step_name c.materials c.products c.cmd
        c.key c.record_streams c.use_gpg = .error e) :
    Cli.in_toto_run w c = .runFailure ("in toto run - " ++ e.message) ∧
    (Cli.in_toto_run w c).exitCode = 1 ∧
    (Cli.in_toto_run w c).logged = ["in toto run - " ++ e.message] ∧
    ∀ sl, Cli.in_toto_run w c ≠ .finished sl := by
  unfold Cli.in_toto_run
  rw [h]
  refine ⟨rfl, rfl, rfl, fun sl hsl => Cli.Outcome.noConfusion hsl⟩

/-- Witness for C1 at a concrete input: a missing material makes the
core fail, and the wrapper logs and exits with status 1. -/
theorem wrapper_exits_one_on_core_error_witness :
    Cli.in_toto_run wEmpty cMissing =
      .runFailure ("in toto run - " ++ (RunError.artifactNotFound "missing.txt").message) ∧
    (Cli.in_toto_run wEmpty cMissing).exitCode = 1 ∧
    (Cli.in_toto_run wEmpty cMissing).logged =
      ["in toto run - " ++ (RunError.artifactNotFound "missing.txt").message] ∧
    ∀ sl, Cli.in_toto_run wEmpty cMissing ≠ .finished sl :=
  wrapper_exits_one_on_core_error wEmpty cMissing (.artifactNotFound "missing.txt") rfl

/-! ## C7 -/

/-- C7: the artifact hasher is traversal-order independent — two runs
over the same content at the same paths, listed in any two orders,
produce identical inventories, and the inventory is sorted by path
(canonical entry order). -/
theorem hashListing_traversal_independent (l1 l2 : List (String × String))
    (h : l1.Perm l2) :
    hashListing l1 = hashListing l2 ∧ (hashListing l1).Sorted artLE := by
  refine ⟨?_, List.sorted_insertionSort artLE _⟩
  exact @List.eq_of_perm_of_sorted _ artLE _ _ _
    ((List.perm_insertionSort artLE _).trans
      ((h.map _).trans (List.perm_insertionSort artLE _).symm))
    (List.sorted_insertionSort artLE _)
    (List.sorted_insertionSort artLE _)

/-- Witness for C7 at a concrete input: two traversal orders of the same
two-file tree hash to the same sorted inventory. -/
theorem hashListing_traversal_independent_witness :
    hashListing [("b.txt", "bb"), ("a.txt", "aa")] =
      hashListing [("a.txt", "aa"), ("b.txt", "bb")] ∧
    (hashListing [("b.txt", "bb"), ("a.txt", "aa")]).Sorted artLE :=
  hashListing_traversal_independent [("b.txt", "bb"), ("a.txt", "aa")]
    [("a.txt", "aa"), ("b.txt", "bb")] (List.Perm.swap _ _ _)

/-! ## C8 -/

/-- C8: the link writer is atomic from the caller's perspective — on
success the destination holds the complete serialized signed record, on
any failure the destination is exactly what it held before (never a
partially written file), so the destination always holds either the
prior content or the full record. -/
theorem writeSignedLink_atomic (sl : SignedLink) (ev : WriteEvent) (d : Disk) :
    ((writeSignedLink sl ev d).2 = true →
      (writeSignedLink sl ev d).1.dest = some (serializeSignedLink sl)) ∧
    ((writeSignedLink sl ev d).2 = false →
      (writeSignedLink sl ev d).1.dest = d.dest) ∧
    ((writeSignedLink sl ev d).1.dest = some (serializeSignedLink sl) ∨
      (writeSignedLink sl ev d).1.dest = d.dest) := by
  cases ev with
  | complete => exact ⟨fun _ => rfl, fun hc => Bool.noConfusion hc, Or.inl rfl⟩
  | failAfter n => exact ⟨fun hc => Bool.noConfusion hc, fun _ => rfl, Or.inr rfl⟩

/-- A concrete signed link used by the writer witness. -/
def slExample : SignedLink :=
  { link := { name := "write-code", materials := [⟨"foo.py", 3⟩], products := [⟨"foo.py", 5⟩],
              command := ["vi", "foo.py"], status := .exited 0, stdout := "", stderr := "" },
    signatures := [("bob", 42)] }

/-- A destination that already holds a prior valid record. -/
def dPrior : Disk := { dest := some "old-record", temp := none }

/-- Witness for C8 at a concrete input: a write that fails after three
bytes leaves the prior destination content untouched. -/
theorem writeSignedLink_atomic_witness :
    (writeSignedLink slExample (WriteEvent.failAfter 3) dPrior).2 = false ∧
    (writeSignedLink slExample (WriteEvent.failAfter 3) dPrior).1.dest = dPrior.dest :=
  ⟨rfl, (writeSignedLink_atomic slExample (WriteEvent.failAfter 3) dPrior).2.1 rfl⟩

/-! ## C9 -/

/-- Arguments with `--verbose` set and everything else defaulted. -/
def argsVerboseEx : Cli.Args :=
  { step_name := "s", materials := [], products := [], key := "k",
    use_gpg := false, record_streams := false, no_command := false,
    verbose := true, link_cmd := ["true"] }

/-- Arguments without `--verbose`. -/
def argsQuietEx : Cli.Args :=
  { step_name := "t", materials := [], products := [], key := "k",
    use_gpg := false, record_streams := false, no_command := false,
    verbose := false, link_cmd := ["true"] }

/-- Counterexample to C9 as stated: the global logging state under which
a non-verbose invocation runs differs depending on whether a verbose
invocation ran earlier in the same process — the two invocations do
affect each other's logging, because verbosity is applied by mutating
the process-global root logger level, not by passing a handle. -/
theorem logging_interference_counterexample :
    Cli.applyVerbosity argsQuietEx
        (Cli.applyVerbosity argsVerboseEx { logLevel := Cli.logWARNING }) ≠
      Cli.applyVerbosity argsQuietEx { logLevel := Cli.logWARNING } := by
  decide

/-- C9 amended: `main` applies `--verbose` by mutating the level of the
process-global root logger (`setLevel` on `getLogger()`), and a
non-verbose invocation leaves whatever level the previous invocation
set, so an earlier invocation's verbosity setting persists into a later
one instead of being an isolated per-invocation handle. -/
theorem verbosity_mutates_global_logger (a1 a2 : Cli.Args) (s : Cli.ProcState)
    (h1 : a1.verbose = true) (h2 : a2.verbose = false) :
    Cli.applyVerbosity a2 (Cli.applyVerbosity a1 s) = { logLevel := Cli.logINFO } ∧
    Cli.applyVerbosity a2 s = s := by
  simp [Cli.applyVerbosity, h1, h2]

/-- Witness for the amended C9 at a concrete input: after a verbose
invocation, a quiet invocation runs with the root logger still at INFO,
while on its own it would have run at the WARNING default. -/
theorem verbosity_mutates_global_logger_witness :
    Cli.applyVerbosity argsQuietEx
        (Cli.applyVerbosity argsVerboseEx { logLevel := Cli.logWARNING }) =
      { logLevel := Cli.logINFO } ∧
    Cli.applyVerbosity argsQuietEx { logLevel := Cli.logWARNING } =
      { logLevel := Cli.logWARNING } :=
  verbosity_mutates_global_logger argsVerboseEx argsQuietEx
    { logLevel := Cli.logWARNING } rfl rfl

/-! ## C2 -/

/-- An invocation with both `--use-gpg` and `--no-command` set. -/
def argsGpgNoCmd : Cli.Args :=
  { step_name := "package", materials := [], products := [],
    key := "89A2AD3C07D962E8", use_gpg := true, record_streams := false,
    no_command := true, verbose := false, link_cmd := [] }

/-- C2 fails on the code: with `--use-gpg --no-command`, `main` calls the
wrapper without the `use_gpg` argument (line 164), so the core receives
the wrapper's default `False` instead of the user's `True` selection. -/
theorem use_gpg_dropped_in_no_command_mode :
    argsGpgNoCmd.use_gpg = true ∧
    ((Cli.mainRun wEmpty (fun _ => none) argsGpgNoCmd).coreCall.map
      Cli.CoreCall.use_gpg) = some false := by
  exact ⟨rfl, rfl⟩

/-! ## C5 -/

/-- C5: when `--no-command` is not set and the command vector is empty,
`main` prints usage and terminates without ever calling the core: no
core call is made, so no Link can be produced. -/
theorem empty_command_prints_usage (w : World) (keyDb : String → Option String)
    (args : Cli.Args) (k : String)
    (hnc : args.no_command = false) (hcmd : args.link_cmd = [])
    (hkey : Cli.loadKey keyDb args = .ok k) :
    (Cli.mainRun w keyDb args).outcome = .usageExit ∧
    (Cli.mainRun w keyDb args).coreCall = none := by
  unfold Cli.mainRun
  rw [hkey]
  simp [hnc, hcmd]

/-- An invocation with neither `--no-command` nor a command vector, whose
key file imports successfully. -/
def argsEmptyCmd : Cli.Args :=
  { step_name := "s", materials := [], products := [], key := "bobkeyfile",
    use_gpg := false, record_streams := false, no_command := false,
    verbose := false, link_cmd := [] }

/-- A key import environment that knows exactly one key file. -/
def keyDbBob : String → Option String :=
  fun p => if p = "bobkeyfile" then some "BOBKEY" else none

/-- Witness for C5 at a concrete input. -/
theorem empty_command_prints_usage_witness :
    (Cli.mainRun wEmpty keyDbBob argsEmptyCmd).outcome = .usageExit ∧
    (Cli.mainRun wEmpty keyDbBob argsEmptyCmd).coreCall = none :=
  empty_command_prints_usage wEmpty keyDbBob argsEmptyCmd "BOBKEY" rfl rfl rfl

/-! ## C10 -/

/-- Dispatch of `main` in `--no-command` mode: whatever the rest of the
arguments, the trace is the key-load outcome or a core call with the
empty command vector and `use_gpg := false`. -/
theorem mainRun_no_command (w : World) (keyDb : String → Option String)
    (args : Cli.Args) (hnc : args.no_command = true) :
    Cli.mainRun w keyDb args =
      match Cli.loadKey keyDb args with
      | .error msg => { coreCall := none, outcome := .keyLoadExit msg }
      | .ok k =>
        let c : Cli.CoreCall :=
          { step_name := args.step_name, materials := args.materials,
            products := args.products, cmd := [], key := k,
            record_streams := args.record_streams, use_gpg := false }
        { coreCall := some c, outcome := Cli.in_toto_run w c } := by
  unfold Cli.mainRun
  cases Cli.loadKey keyDb args with
  | error msg => rfl
  | ok k => simp [hnc]

/-- C10: with `--no-command` set, a command vector supplied after the
separator is silently discarded — the whole trace equals the trace of
the same invocation with no command supplied, any core call made carries
the empty command vector, and the spawn behaviour of the discarded
command is never consulted. -/
theorem no_command_discards_supplied_command (w : World)
    (keyDb : String → Option String) (args : Cli.Args) (cmd : List String)
    (hnc : args.no_command = true) :
    Cli.mainRun w keyDb { args with link_cmd := cmd } =
      Cli.mainRun w keyDb { args with link_cmd := [] } ∧
    (∀ c, (Cli.mainRun w keyDb { args with link_cmd := cmd }).coreCall = some c →
      c.cmd = []) ∧
    (∀ rOther, Cli.mainRun { w with run := rOther } keyDb
        { args with link_cmd := cmd } =
      Cli.mainRun w keyDb { args with link_cmd := cmd }) := by
  have h1 := mainRun_no_command w keyDb { args with link_cmd := cmd } hnc
  have h2 := mainRun_no_command w keyDb { args with link_cmd := ([] : List String)} hnc
  refine ⟨?_, ?_, ?_⟩
  · rw [h1, h2]; exact rfl
  · intro c hc
    rw [h1] at hc
    revert hc
    cases Cli.loadKey keyDb { args with link_cmd := cmd } with
    | error msg => intro hc; exact Option.noConfusion hc
    | ok k =>
      intro hc
      have := Option.some.inj hc
      rw [← this]
  · intro rOther
    rw [h1, mainRun_no_command { w with run := rOther } keyDb
      { args with link_cmd := cmd } hnc]
    exact rfl

/-- An invocation with `--no-command` set. -/
def argsNoCmdEx : Cli.Args :=
  { step_name := "tag", materials := [], products := [], key := "bobkeyfile",
    use_gpg := false, record_streams := false, no_command := true,
    verbose := false, link_cmd := [] }

/-- Witness for C10 at a concrete input: a supplied `rm -rf tmp` after
the separator changes nothing and never runs. -/
theorem no_command_discards_supplied_command_witness :
    Cli.mainRun wEmpty keyDbBob { argsNoCmdEx with link_cmd := ["rm", "-rf", "tmp"] } =
      Cli.mainRun wEmpty keyDbBob { argsNoCmdEx with link_cmd := [] } ∧
    (∀ c, (Cli.mainRun wEmpty keyDbBob
        { argsNoCmdEx with link_cmd := ["rm", "-rf", "tmp"] }).coreCall = some c →
      c.cmd = []) ∧
    (∀ rOther, Cli.mainRun { wEmpty with run := rOther } keyDbBob
        { argsNoCmdEx with link_cmd := ["rm", "-rf", "tmp"] } =
      Cli.mainRun wEmpty keyDbBob
        { argsNoCmdEx with link_cmd := ["rm", "-rf", "tmp"] }) :=
  no_command_discards_supplied_command wEmpty keyDbBob argsNoCmdEx
    ["rm", "-rf", "tmp"] rfl

/-! ## C3 -/

/-- C3: in `--no-command` mode the core receives the empty command
vector, the executor is skipped, the sentinel "no command" status (no
exit code) is recorded, and the produced Link carries the material and
product inventories computed by the artifact hasher. -/
theorem no_command_records_sentinel (w : World) (keyDb : String → Option String)
    (args : Cli.Args) (k : String) (mats prods : List Artifact)
    (hnc : args.no_command = true)
    (hkey : Cli.loadKey keyDb args = .ok k)
    (hm : hashArtifacts w.fsBefore args.materials = .ok mats)
    (hp : hashArtifacts w.fsAfter args.products = .ok prods) :
    ∃ c sl, (Cli.mainRun w keyDb args).coreCall = some c ∧ c.cmd = [] ∧
      (Cli.mainRun w keyDb args).outcome = .finished sl ∧
      sl.link.status = .noCommand ∧ sl.link.command = [] ∧
      sl.link.materials = mats ∧ sl.link.products = prods := by
  have hcore : ∃ sl, Runlib.in_toto_run w args.step_name args.materials args.products []
      k args.record_streams false = .ok sl ∧
      sl.link.status = .noCommand ∧ sl.link.command = [] ∧
      sl.link.materials = mats ∧ sl.link.products = prods := by
    unfold Runlib.in_toto_run
    rw [hm, show execute w.run [] args.record_streams =
      .ok { cmd := [], status := .noCommand, stdout := "", stderr := "" } from rfl, hp]
    exact ⟨_, rfl, rfl, rfl, rfl, rfl⟩
  obtain ⟨sl, hsl, h1, h2, h3, h4⟩ := hcore
  rw [mainRun_no_command w keyDb args hnc, hkey]
  refine ⟨_, sl, rfl, rfl, ?_, h1, h2, h3, h4⟩
  show Cli.in_toto_run w
    { step_name := args.step_name, materials := args.materials,
      products := args.products, cmd := [], key := k,
      record_streams := args.record_streams, use_gpg := false } =
    Cli.Outcome.finished sl
  unfold Cli.in_toto_run
  dsimp only
  rw [hsl]

/-- A world holding one source file before and after the step. -/
def wOneFile : World :=
  { fsBefore := [("foo.py", "print(1)")],
    run := fun _ => none,
    fsAfter := [("foo.py", "print(1)")],
    gpgAgent := fun _ => none }

/-- Witness for C3 at a concrete input: recording a no-command step over
one material and one product succeeds with the sentinel status and the
hashed inventories. -/
theorem no_command_records_sentinel_witness :
    ∃ c sl,
      (Cli.mainRun wOneFile keyDbBob
        { argsNoCmdEx with materials := ["foo.py"], products := ["foo.py"] }).coreCall =
        some c ∧ c.cmd = [] ∧
      (Cli.mainRun wOneFile keyDbBob
        { argsNoCmdEx with materials := ["foo.py"], products := ["foo.py"] }).outcome =
        .finished sl ∧
      sl.link.status = .noCommand ∧ sl.link.command = [] ∧
      sl.link.materials = [⟨"foo.py", hashContent "print(1)"⟩] ∧
      sl.link.products = [⟨"foo.py", hashContent "print(1)"⟩] :=
  no_command_records_sentinel wOneFile keyDbBob
    { argsNoCmdEx with materials := ["foo.py"], products := ["foo.py"] }
    "BOBKEY" [⟨"foo.py", hashContent "print(1)"⟩] [⟨"foo.py", hashContent "print(1)"⟩]
    rfl rfl rfl rfl

/-! ## C4 -/

/-- C4: a wrapped command that spawns successfully and exits with any
code — zero or not — makes the step recording succeed: the wrapper
raises no error and does not exit with status 1, and the produced Link
records that exit code verbatim. -/
theorem nonzero_exit_recorded_verbatim (w : World) (c : Cli.CoreCall) (code : Int)
    (out err : String) (mats prods : List Artifact)
    (hcmd : c.cmd.isEmpty = false)
    (hrun : w.run c.cmd = some (code, out, err))
    (hm : hashArtifacts w.fsBefore c.materials = .ok mats)
    (hp : hashArtifacts w.fsAfter c.products = .ok prods)
    (hsig : c.use_gpg = false ∨ ∃ s, w.gpgAgent c.key = some s) :
    ∃ sl, Cli.in_toto_run w c = .finished sl ∧
      sl.link.status = .exited code ∧ sl.link.command = c.cmd ∧
      (Cli.in_toto_run w c).exitCode = 0 ∧
      (Cli.in_toto_run w c).logged = [] := by
  have hexec : execute w.run c.cmd c.record_streams =
      .ok { cmd := c.cmd, status := .exited code,
            stdout := if c.record_streams then out else "",
            stderr := if c.record_streams then err else "" } := by
    unfold execute
    rw [hcmd, hrun]
    rfl
  have hcore : ∃ sl, Runlib.in_toto_run w c.step_name c.materials c.products c.cmd
      c.key c.record_streams c.use_gpg = .ok sl ∧
      sl.link.status = .exited code ∧ sl.link.command = c.cmd := by
    unfold Runlib.in_toto_run
    rw [hm, hexec, hp]
    unfold signLink
    rcases hsig with hng | ⟨s, hs⟩
    · rw [hng]
      exact ⟨_, rfl, rfl, rfl⟩
    · cases hgpg : c.use_gpg with
      | false => exact ⟨_, rfl, rfl, rfl⟩
      | true =>
        simp only [if_true]
        rw [hs]
        exact ⟨_, rfl, rfl, rfl⟩
  obtain ⟨sl, hsl, hst, hcm⟩ := hcore
  refine ⟨sl, ?_, hst, hcm, ?_, ?_⟩ <;>
    unfold Cli.in_toto_run <;> rw [hsl]
  · rfl
  · rfl

/-- A world in which `make` spawns and exits with code 7. -/
def wMakeSeven : World :=
  { fsBefore := [("foo.py", "print(1)")],
    run := fun cv => if cv = ["make"] then some (7, "out", "err") else none,
    fsAfter := [("foo.py", "print(1)")],
    gpgAgent := fun _ => none }

/-- The core call recording the `make` step. -/
def cMakeSeven : Cli.CoreCall :=
  { step_name := "build", materials := ["foo.py"], products := ["foo.py"],
    cmd := ["make"], key := "bob", record_streams := false, use_gpg := false }

/-- Witness for C4 at a concrete input: `make` exits with code 7 and the
recording still succeeds, Link carrying exit code 7. -/
theorem nonzero_exit_recorded_verbatim_witness :
    ∃ sl, Cli.in_toto_run wMakeSeven cMakeSeven = .finished sl ∧
      sl.link.status = .exited 7 ∧ sl.link.command = cMakeSeven.cmd ∧
      (Cli.in_toto_run wMakeSeven cMakeSeven).exitCode = 0 ∧
      (Cli.in_toto_run wMakeSeven cMakeSeven).logged = [] :=
  nonzero_exit_recorded_verbatim wMakeSeven cMakeSeven 7 "out" "err"
    [⟨"foo.py", hashContent "print(1)"⟩] [⟨"foo.py", hashContent "print(1)"⟩]
    rfl rfl rfl rfl (Or.inl rfl)

/-! ## C6 -/

/-- Path resolution fails with `ArtifactNotFoundError` naming a missing
path whenever any requested path is absent from the filesystem. -/
theorem resolvePaths_missing (fs : FileSystem) :
    ∀ (paths : List String) (p : String), p ∈ paths → lookupFS fs p = none →
      ∃ q, resolvePaths fs paths = .error (.artifactNotFound q) ∧
        lookupFS fs q = none := by
  intro paths
  induction paths with
  | nil => intro p hp _; exact absurd hp (List.not_mem_nil p)
  | cons q0 ps ih =>
    intro p hp hmiss
    cases hq : lookupFS fs q0 with
    | none =>
      refine ⟨q0, ?_, hq⟩
      unfold resolvePaths
      rw [hq]
    | some c =>
      have hptail : p ∈ ps := by
        cases hp with
        | head => rw [hmiss] at hq; exact Option.noConfusion hq
        | tail _ h => exact h
      obtain ⟨q, hq', hmq⟩ := ih p hptail hmiss
      refine ⟨q, ?_, hmq⟩
      unfold resolvePaths
      rw [hq, hq']

/-- C6: when the material list references a missing path, the step
recording fails with `ArtifactNotFoundError`: `main`'s trace ends in the
wrapper's failure outcome naming a missing artifact, the process exit
status is 1, and no Link is ever produced (the run never finishes with a
signed link, so the writer is never reached). -/
theorem missing_material_aborts_run (w : World) (keyDb : String → Option String)
    (args : Cli.Args) (k : String) (p : String)
    (hnc : args.no_command = false) (hcmd : args.link_cmd.isEmpty = false)
    (hkey : Cli.loadKey keyDb args = .ok k)
    (hmem : p ∈ args.materials) (hmiss : lookupFS w.fsBefore p = none) :
    ∃ q, lookupFS w.fsBefore q = none ∧
      (Cli.mainRun w keyDb args).outcome =
        .runFailure ("in toto run - " ++ (RunError.artifactNotFound q).message) ∧
      (Cli.mainRun w keyDb args).outcome.exitCode = 1 ∧
      ∀ sl, (Cli.mainRun w keyDb args).outcome ≠ .finished sl := by
  obtain ⟨q, hq, hmq⟩ := resolvePaths_missing w.fsBefore args.materials p hmem hmiss
  have hhash : hashArtifacts w.fsBefore args.materials =
      .error (.artifactNotFound q) := by
    unfold hashArtifacts
    rw [hq]
  have hcore : Runlib.in_toto_run w args.step_name args.materials args.products
      args.link_cmd k args.record_streams args.use_gpg =
      .error (.artifactNotFound q) := by
    unfold Runlib.in_toto_run
    rw [hhash]
  have hmain : Cli.mainRun w keyDb args =
      { coreCall := some
          { step_name := args.step_name, materials := args.materials,
            products := args.products, cmd := args.link_cmd, key := k,
            record_streams := args.record_streams, use_gpg := args.use_gpg },
        outcome := .runFailure
          ("in toto run - " ++ (RunError.artifactNotFound q).message) } := by
    unfold Cli.mainRun
    rw [hkey]
    simp only [hnc, Bool.false_eq_true, if_false, hcmd, Bool.false_eq_true, if_false]
    unfold Cli.in_toto_run
    dsimp only
    rw [hcore]
  refine ⟨q, hmq, ?_, ?_, ?_⟩
  · rw [hmain]
  · rw [hmain]; rfl
  · intro sl
    rw [hmain]
    exact fun hcon => Cli.Outcome.noConfusion hcon

/-- An invocation whose material list references a file absent from
`wEmpty`'s filesystem. -/
def argsMissingMat : Cli.Args :=
  { step_name := "write-code", materials := ["missing.txt"], products := [],
    key := "bobkeyfile", use_gpg := false, record_streams := false,
    no_command := false, verbose := false, link_cmd := ["true"] }

/-- Witness for C6 at a concrete input: `missing.txt` does not exist, so
the run aborts with `ArtifactNotFoundError` and exit status 1. -/
theorem missing_material_aborts_run_witness :
    ∃ q, lookupFS wEmpty.fsBefore q = none ∧
      (Cli.mainRun wEmpty keyDbBob argsMissingMat).outcome =
        .runFailure ("in toto run - " ++ (RunError.artifactNotFound q).message) ∧
      (Cli.mainRun wEmpty keyDbBob argsMissingMat).outcome.exitCode = 1 ∧
      ∀ sl, (Cli.mainRun wEmpty keyDbBob argsMissingMat).outcome ≠ .finished sl :=
  missing_material_aborts_run wEmpty keyDbBob argsMissingMat "BOBKEY"
    "missing.txt" rfl rfl rfl (List.mem_singleton.mpr rfl) rfl

end InToto
